import Mathlib

/-!
# Network_Final: position sharing between two peers

A shallow embedding of `src/Final_Project/src/main.c`.

* C `int` values are `Int`; the results of `++`, `--`, `+=`, `*=` and `- 1`
  pass through `wrap32` (two's complement, 32 bits).
* `GameInfo` is passed explicitly; each thread body is a function from the
  state before one loop iteration to the state after it, and a loop is the
  iteration of that function over what the environment delivers (key codes,
  controller events, results of `sendto` and `recvfrom`).
* Constants of `ncurses.h` and `SDL.h` (key codes, button codes, `COLS`,
  `LINES`) are not part of the repository; they are fields of `Surface`,
  `Keys` and `Buttons`.
-/

namespace NetworkFinal

/-! ## Machine integers -/

/-- Two's complement reduction of an integer to the range of a 32-bit `int`. -/
def wrap32 (v : Int) : Int := (v + 2147483648) % 4294967296 - 2147483648

/-- Largest value of a 32-bit `int`. -/
def INT_MAX : Int := 2147483647

/-! ## Data model (main.c, lines 19-46) -/

/-- The C struct `Position`. -/
structure Position where
  x : Int
  y : Int
deriving DecidableEq, Repr

/-- The C struct `Packet`. -/
structure Packet where
  player_id : Int
  pos : Position
deriving DecidableEq, Repr

/-- The C struct `sockaddr_in`, as far as `main` fills it. -/
structure sockaddr_in where
  sin_family : Int
  sin_port : Int
  sin_addr : Int
deriving DecidableEq, Repr

/-- The C struct `GameInfo`. -/
structure GameInfo where
  local_pos : Position
  remote_pos : Position
  sock_fd : Int
  remote_addr : sockaddr_in
  addr_len : Int
  mode : Int
  running : Int
deriving DecidableEq, Repr

/-- The extent of the curses screen: the globals `COLS` and `LINES`. -/
structure Surface where
  COLS : Int
  LINES : Int
deriving DecidableEq, Repr

/-- The key codes of `ncurses.h` that `main` switches on. -/
structure Keys where
  KEY_UP : Int
  KEY_DOWN : Int
  KEY_LEFT : Int
  KEY_RIGHT : Int
deriving DecidableEq, Repr

/-- The key codes as `ncurses.h` defines them (octal 0403, 0402, 0404, 0405). -/
def curses_keys : Keys :=
  { KEY_UP := 259, KEY_DOWN := 258, KEY_LEFT := 260, KEY_RIGHT := 261 }

/-- The constants of `SDL.h` that the controller branch of `main` uses. -/
structure Buttons where
  SDL_CONTROLLERBUTTONDOWN : Int
  SDL_CONTROLLER_BUTTON_DPAD_UP : Int
  SDL_CONTROLLER_BUTTON_DPAD_DOWN : Int
  SDL_CONTROLLER_BUTTON_DPAD_LEFT : Int
  SDL_CONTROLLER_BUTTON_DPAD_RIGHT : Int
  SDL_CONTROLLER_BUTTON_A : Int
deriving DecidableEq, Repr

/-- The constants as `SDL.h` defines them. -/
def sdl_buttons : Buttons :=
  { SDL_CONTROLLERBUTTONDOWN := 1617,
    SDL_CONTROLLER_BUTTON_DPAD_UP := 11,
    SDL_CONTROLLER_BUTTON_DPAD_DOWN := 12,
    SDL_CONTROLLER_BUTTON_DPAD_LEFT := 13,
    SDL_CONTROLLER_BUTTON_DPAD_RIGHT := 14,
    SDL_CONTROLLER_BUTTON_A := 0 }

/-- An `SDL_Event` as the controller branch reads it: `e.type` and
`e.cbutton.button`. -/
structure SDL_Event where
  type : Int
  button : Int
deriving DecidableEq, Repr

/-- The character constant `'q'`. -/
def KEY_Q : Int := 113

/-- What one pass of the session loop reads: the result of `getch()` and the
events that `SDL_PollEvent` hands out until its queue is empty. -/
structure TickInput where
  c : Int
  events : List SDL_Event
deriving DecidableEq, Repr

/-- The initialiser of `data` in `main` (lines 187-194); `remote_addr` is
zeroed here. -/
def initial_data : GameInfo :=
  { local_pos := { x := 0, y := 0 },
    remote_pos := { x := 0, y := 0 },
    sock_fd := -1,
    remote_addr := { sin_family := 0, sin_port := 0, sin_addr := 0 },
    addr_len := 16,
    mode := 0,
    running := 1 }

/-! ## Movement by keyboard and controller (main.c, lines 126-173, 269-351) -/

/-- The body of `case KEY_UP` / `case SDL_CONTROLLER_BUTTON_DPAD_UP`. -/
def move_up (data : GameInfo) : GameInfo :=
  if data.local_pos.y > 0 then
    { data with local_pos := { data.local_pos with y := wrap32 (data.local_pos.y - 1) } }
  else data

/-- The body of `case KEY_DOWN` / `case SDL_CONTROLLER_BUTTON_DPAD_DOWN`. -/
def move_down (sf : Surface) (data : GameInfo) : GameInfo :=
  if data.local_pos.y < wrap32 (sf.LINES - 1) then
    { data with local_pos := { data.local_pos with y := wrap32 (data.local_pos.y + 1) } }
  else data

/-- The body of `case KEY_LEFT` / `case SDL_CONTROLLER_BUTTON_DPAD_LEFT`. -/
def move_left (data : GameInfo) : GameInfo :=
  if data.local_pos.x > 0 then
    { data with local_pos := { data.local_pos with x := wrap32 (data.local_pos.x - 1) } }
  else data

/-- The body of `case KEY_RIGHT` / `case SDL_CONTROLLER_BUTTON_DPAD_RIGHT`. -/
def move_right (sf : Surface) (data : GameInfo) : GameInfo :=
  if data.local_pos.x < wrap32 (sf.COLS - 1) then
    { data with local_pos := { data.local_pos with x := wrap32 (data.local_pos.x + 1) } }
  else data

/-- The `switch(c)` on a key code (lines 281-301 and 131-159). -/
def key_switch (sf : Surface) (k : Keys) (data : GameInfo) (c : Int) : GameInfo :=
  if c = k.KEY_UP then move_up data
  else if c = k.KEY_DOWN then move_down sf data
  else if c = k.KEY_LEFT then move_left data
  else if c = k.KEY_RIGHT then move_right sf data
  else data

/-- The body of `while(SDL_PollEvent(&e))` for one event (lines 309-335). -/
def controller_event (sf : Surface) (b : Buttons) (data : GameInfo) (e : SDL_Event) : GameInfo :=
  if e.type = b.SDL_CONTROLLERBUTTONDOWN then
    if e.button = b.SDL_CONTROLLER_BUTTON_DPAD_UP then move_up data
    else if e.button = b.SDL_CONTROLLER_BUTTON_DPAD_DOWN then move_down sf data
    else if e.button = b.SDL_CONTROLLER_BUTTON_DPAD_LEFT then move_left data
    else if e.button = b.SDL_CONTROLLER_BUTTON_DPAD_RIGHT then move_right sf data
    else if e.button = b.SDL_CONTROLLER_BUTTON_A then { data with running := 0 }
    else data
  else data

/-- The loop `while(SDL_PollEvent(&e))` over the queued events (lines 307-336). -/
def poll_events (sf : Surface) (b : Buttons) (data : GameInfo) (events : List SDL_Event) : GameInfo :=
  events.foldl (controller_event sf b) data

/-- One pass of the body of `while(data.running)` in `main` (lines 271-350);
drawing and sleeping change no field of `data`. -/
def session_tick (sf : Surface) (k : Keys) (b : Buttons) (data : GameInfo) (inp : TickInput) : GameInfo :=
  let data1 := if inp.c = KEY_Q then { data with running := 0 } else data
  if data1.mode = 0 then key_switch sf k data1 inp.c
  else if data1.mode = 2 then poll_events sf b data1 inp.events
  else data1

/-- The states after each executed pass of `while(data.running)` in `main`,
for the inputs delivered pass by pass; the loop stops when `running` is 0. -/
def session_trace (sf : Surface) (k : Keys) (b : Buttons) : GameInfo → List TickInput → List GameInfo
  | _, [] => []
  | data, inp :: rest =>
    if data.running ≠ 0 then
      session_tick sf k b data inp :: session_trace sf k b (session_tick sf k b data inp) rest
    else []

/-- The state in which `while(data.running)` in `main` stands after the
inputs delivered: the loop has ended when its `running` is 0. -/
def session_loop (sf : Surface) (k : Keys) (b : Buttons) : GameInfo → List TickInput → GameInfo
  | data, [] => data
  | data, inp :: rest =>
    if data.running ≠ 0 then session_loop sf k b (session_tick sf k b data inp) rest
    else data

/-- The states after each executed pass of the loop of `keyboard_input`
(lines 129-171) for the key codes `getch()` returns; the loop stops on `'q'`
or when `running` is 0. -/
def keyboard_trace (sf : Surface) (k : Keys) : GameInfo → List Int → List GameInfo
  | _, [] => []
  | data, c :: rest =>
    if data.running ≠ 0 ∧ c ≠ KEY_Q then
      key_switch sf k data c :: keyboard_trace sf k (key_switch sf k data c) rest
    else []

/-- The function `keyboard_input` (lines 126-173) on the key codes `getch()`
returns: `none` while the loop still waits for a key, else the state at return. -/
def keyboard_input (sf : Surface) (k : Keys) : GameInfo → List Int → Option GameInfo
  | data, [] => if data.running ≠ 0 then none else some { data with running := 0 }
  | data, c :: rest =>
    if data.running ≠ 0 ∧ c ≠ KEY_Q then keyboard_input sf k (key_switch sf k data c) rest
    else some { data with running := 0 }

/-- The position lies on the surface. -/
def on_surface (sf : Surface) (p : Position) : Prop :=
  0 ≤ p.x ∧ p.x ≤ sf.COLS - 1 ∧ 0 ≤ p.y ∧ p.y ≤ sf.LINES - 1

instance (sf : Surface) (p : Position) : Decidable (on_surface sf p) := by
  unfold on_surface; infer_instance

/-- The surface has at least one cell. -/
def valid_surface (sf : Surface) : Prop :=
  1 ≤ sf.COLS ∧ 1 ≤ sf.LINES

/-- The position lies on the surface and its coordinates are C `int` values:
what the guarded `++` and `--` of the drivers keep. -/
def clamped (sf : Surface) (p : Position) : Prop :=
  on_surface sf p ∧ p.x ≤ INT_MAX ∧ p.y ≤ INT_MAX

instance (sf : Surface) : Decidable (valid_surface sf) := by
  unfold valid_surface; infer_instance

/-! ## The Publisher: `send_position` (main.c, lines 49-68) -/

/-- What the environment contributes to one pass of a thread loop that sends:
the writes of the other threads to the shared `GameInfo` since the previous
pass, applied before the loop test, and the result of `sendto` in the pass. -/
structure SendStep where
  others : GameInfo → GameInfo
  sendto_ret : Int

/-- The outcome of one pass of the body of the loop of `send_position`. -/
structure SendPass where
  data : GameInfo
  packet : Packet
  perror : Bool
deriving DecidableEq, Repr

/-- One pass of the body of `while(data->running)` in `send_position`
(lines 59-65): `packet.pos = data->local_pos`, then `sendto` of `packet`,
whose result is `sendto_ret`; `perror` is called when it is negative. The
field `packet` of the result is the packet handed to `sendto`. -/
def send_body (data : GameInfo) (packet : Packet) (sendto_ret : Int) : SendPass :=
  let packet1 := { packet with pos := data.local_pos }
  if sendto_ret < 0 then { data := data, packet := packet1, perror := true }
  else { data := data, packet := packet1, perror := false }

/-- A run of `send_position`: the packets handed to `sendto`, call by call,
the shared state the thread leaves, and whether `pthread_exit` was reached. -/
structure SendRun where
  calls : List Packet
  data : GameInfo
  exited : Bool
deriving DecidableEq, Repr

/-- The loop `while(data->running)` of `send_position` (lines 57-66) over the
steps of the environment, from the shared state `data` and the local `packet`. -/
def send_loop : GameInfo → Packet → List SendStep → SendRun
  | data, _, [] => { calls := [], data := data, exited := false }
  | data, packet, st :: rest =>
    if (st.others data).running ≠ 0 then
      { calls := (send_body (st.others data) packet st.sendto_ret).packet ::
          (send_loop (send_body (st.others data) packet st.sendto_ret).data
            (send_body (st.others data) packet st.sendto_ret).packet rest).calls,
        data := (send_loop (send_body (st.others data) packet st.sendto_ret).data
            (send_body (st.others data) packet st.sendto_ret).packet rest).data,
        exited := (send_loop (send_body (st.others data) packet st.sendto_ret).data
            (send_body (st.others data) packet st.sendto_ret).packet rest).exited }
    else { calls := [], data := st.others data, exited := true }

/-- The thread function `send_position` (lines 49-68); its local `packet`
starts as `{.player_id = 0}`, the other members zeroed. -/
def send_position (data : GameInfo) (steps : List SendStep) : SendRun :=
  send_loop data { player_id := 0, pos := { x := 0, y := 0 } } steps

/-- The shared state as the other threads alone leave it at each loop test. -/
def shared_states : GameInfo → List (GameInfo → GameInfo) → List GameInfo
  | _, [] => []
  | data, f :: fs => f data :: shared_states (f data) fs

/-! ## The Subscriber: `receive_position` (main.c, lines 71-94) -/

/-- What the environment contributes to one pass of the loop of
`receive_position`: the writes of the other threads before the loop test, the
result of `recvfrom`, and the contents of the buffer `packet` after the call. -/
structure RecvStep where
  others : GameInfo → GameInfo
  received : Int
  packet : Packet

/-- The result of `recvfrom` when the receive timeout set with `SO_RCVTIMEO`
expires: -1, with `errno` set to `EAGAIN`. -/
def RECV_TIMEOUT : Int := -1

/-- The outcome of one pass of the body of the loop of `receive_position`:
the shared state, whether `break` was taken, whether `perror` was called. -/
structure RecvPass where
  data : GameInfo
  brk : Bool
  perror : Bool
deriving DecidableEq, Repr

/-- One pass of the body of `while(data->running)` in `receive_position`
(lines 79-91), for the result `received` of `recvfrom` and the buffer
`packet` after the call. -/
def receive_body (data : GameInfo) (received : Int) (packet : Packet) : RecvPass :=
  if received > 0 then
    if packet.player_id = 1 then
      { data := { data with remote_pos := packet.pos }, brk := false, perror := false }
    else { data := data, brk := false, perror := false }
  else if received < 0 then { data := data, brk := true, perror := true }
  else { data := data, brk := false, perror := false }

/-- A run of `receive_position`: the number of `recvfrom` calls made, the
number of calls of `perror` (the one call in the function is
`perror("Peer disconnected")`, line 89), the shared state the thread leaves,
and whether `pthread_exit` was reached. -/
structure RecvRun where
  receives : Nat
  perrors : Nat
  data : GameInfo
  exited : Bool
deriving DecidableEq, Repr

/-- The thread function `receive_position` (lines 71-94) over the steps of
the environment. -/
def receive_position : GameInfo → List RecvStep → RecvRun
  | data, [] => { receives := 0, perrors := 0, data := data, exited := false }
  | data, st :: rest =>
    if (st.others data).running ≠ 0 then
      if (receive_body (st.others data) st.received st.packet).brk = true then
        { receives := 1,
          perrors :=
            if (receive_body (st.others data) st.received st.packet).perror = true then 1 else 0,
          data := (receive_body (st.others data) st.received st.packet).data,
          exited := true }
      else
        { receives :=
            (receive_position (receive_body (st.others data) st.received st.packet).data rest).receives + 1,
          perrors :=
            (receive_position (receive_body (st.others data) st.received st.packet).data rest).perrors +
              (if (receive_body (st.others data) st.received st.packet).perror = true then 1 else 0),
          data :=
            (receive_position (receive_body (st.others data) st.received st.packet).data rest).data,
          exited :=
            (receive_position (receive_body (st.others data) st.received st.packet).data rest).exited }
    else { receives := 0, perrors := 0, data := st.others data, exited := true }

/-! ## The wire image of a packet (main.c, lines 20-30, 61, 79)

`sendto` is handed `&packet` and `sizeof(packet)`, `recvfrom` fills `&packet`:
what travels is the object representation of `Packet`, three 4-byte `int`
members without padding, each in the byte order of the machine. -/

/-- The byte order of the machine. -/
inductive ByteOrder where
  | little
  | big
deriving DecidableEq, Repr

/-- The value is a 32-bit `int`. -/
def is_int32 (v : Int) : Prop := -2147483648 ≤ v ∧ v ≤ 2147483647

instance (v : Int) : Decidable (is_int32 v) := by
  unfold is_int32; infer_instance

/-- The four bytes of a 32-bit `int` in memory. -/
def int_bytes (o : ByteOrder) (v : Int) : List Nat :=
  let u := (v % 4294967296).toNat
  match o with
  | .little => [u % 256, u / 256 % 256, u / 65536 % 256, u / 16777216 % 256]
  | .big => [u / 16777216 % 256, u / 65536 % 256, u / 256 % 256, u % 256]

/-- The unsigned value of four bytes, least significant first. -/
def bytes_unsigned (b0 b1 b2 b3 : Nat) : Int :=
  (b0 : Int) + 256 * (b1 : Int) + 65536 * (b2 : Int) + 16777216 * (b3 : Int)

/-- The 32-bit `int` that four bytes of memory hold. -/
def bytes_int (o : ByteOrder) (bs : List Nat) : Int :=
  match o, bs with
  | .little, [b0, b1, b2, b3] => wrap32 (bytes_unsigned b0 b1 b2 b3)
  | .big, [b3, b2, b1, b0] => wrap32 (bytes_unsigned b0 b1 b2 b3)
  | _, _ => 0

/-- The `sizeof(packet)` bytes that `sendto` reads at `&packet`. -/
def packet_image (o : ByteOrder) (p : Packet) : List Nat :=
  int_bytes o p.player_id ++ int_bytes o p.pos.x ++ int_bytes o p.pos.y

/-- The `Packet` that the bytes hold which `recvfrom` wrote at `&packet`. -/
def image_packet (o : ByteOrder) (bs : List Nat) : Packet :=
  { player_id := bytes_int o (bs.take 4),
    pos := { x := bytes_int o ((bs.drop 4).take 4), y := bytes_int o ((bs.drop 8).take 4) } }

/-- The step of a receiving peer in which the datagram that `sendto` built
from `p` arrives whole: `recvfrom` returns its length and the buffer holds
its bytes. -/
def deliver (o : ByteOrder) (p : Packet) : RecvStep :=
  { others := id,
    received := ((packet_image o p).length : Int),
    packet := image_packet o (packet_image o p) }

/-! ## The Scripted driver: `auto_move` (main.c, lines 96-122) -/

/-- The shared state together with the locals of `auto_move`. -/
structure AutoState where
  data : GameInfo
  x_direction : Int
  y_direction : Int
deriving DecidableEq, Repr

/-- The state in which `auto_move` enters its loop (lines 102-103). -/
def auto_start (data : GameInfo) : AutoState :=
  { data := data, x_direction := 1, y_direction := 1 }

/-- Lines 107-111: `local_pos.x += x_direction`, then the test of the two
boundaries and `x_direction *= -1`. -/
def x_advance (sf : Surface) (s : AutoState) : AutoState :=
  let x1 := wrap32 (s.data.local_pos.x + s.x_direction)
  let data1 := { s.data with local_pos := { s.data.local_pos with x := x1 } }
  if x1 ≤ 0 ∨ x1 ≥ wrap32 (sf.COLS - 1) then
    { s with data := data1, x_direction := wrap32 (s.x_direction * -1) }
  else { s with data := data1 }

/-- Lines 114-118: `local_pos.y += y_direction`, then the test of the two
boundaries and `y_direction *= -1`. -/
def y_advance (sf : Surface) (s : AutoState) : AutoState :=
  let y1 := wrap32 (s.data.local_pos.y + s.y_direction)
  let data1 := { s.data with local_pos := { s.data.local_pos with y := y1 } }
  if y1 ≤ 0 ∨ y1 ≥ wrap32 (sf.LINES - 1) then
    { s with data := data1, y_direction := wrap32 (s.y_direction * -1) }
  else { s with data := data1 }

/-- One pass of the body of `while(data->running)` in `auto_move`
(lines 107-119); the two sleeps change nothing. -/
def auto_move_pass (sf : Surface) (s : AutoState) : AutoState :=
  y_advance sf (x_advance sf s)

/-- The loop of `auto_move` (lines 105-120), at most `n` passes: a pass is
made when the loop test finds `running` non-zero. -/
def auto_move_loop (sf : Surface) : Nat → AutoState → AutoState
  | 0, s => s
  | n + 1, s =>
    if s.data.running ≠ 0 then auto_move_loop sf n (auto_move_pass sf s) else s

/-- The number of passes, among the first `n` of the loop of `auto_move`, in
which `x_direction *= -1` (line 110) is executed. -/
def x_reversals (sf : Surface) : Nat → AutoState → Nat
  | 0, _ => 0
  | n + 1, s =>
    if s.data.running ≠ 0 then
      (if (x_advance sf s).x_direction ≠ s.x_direction then 1 else 0) +
        x_reversals sf n (auto_move_pass sf s)
    else 0

/-! ## Startup and shutdown: `main` (main.c, lines 175-372) -/

/-- The threads `main` creates with `pthread_create`. -/
inductive Thread where
  | send_position
  | receive_position
  | auto_move
deriving DecidableEq, Repr

/-- What the environment returns to `main` before the session loop: the
results of `SDL_Init`, `socket`, `bind`, `inet_pton`, the argument count, the
ports and the address parsed, and the mode read from standard input. -/
structure Startup where
  SDL_Init_ret : Int
  argc : Int
  socket_ret : Int
  bind_ret : Int
  inet_pton_ret : Int
  remote_port : Int
  remote_ip : Int
  mode : Int
deriving DecidableEq, Repr

/-- A run of `main`: the value returned (`none` while the session loop has
not ended on the inputs delivered), the threads created, in order, and
`data` with the writes of `main` itself. -/
structure MainRun where
  status : Option Int
  threads : List Thread
  data : GameInfo
deriving DecidableEq, Repr

/-- The value of `AF_INET`. -/
def AF_INET : Int := 2

/-- The function `main` (lines 175-372). The two `return 1` are the failure
of `SDL_Init` and the wrong argument count; `goto cleanup` leads to the
`return 0` at the end, as does the end of the session loop. Opening and
closing the controller, the curses setup and the thread joins write no field
of `data` and take no part in the value returned. -/
def main (sf : Surface) (k : Keys) (b : Buttons) (env : Startup) (inputs : List TickInput) : MainRun :=
  if env.SDL_Init_ret < 0 then { status := some 1, threads := [], data := initial_data }
  else if env.argc ≠ 4 then { status := some 1, threads := [], data := initial_data }
  else
    let data1 := { initial_data with sock_fd := env.socket_ret }
    if env.bind_ret < 0 then { status := some 0, threads := [], data := data1 }
    else
      let data2 := { data1 with remote_addr :=
        { sin_family := AF_INET, sin_port := env.remote_port, sin_addr := env.remote_ip } }
      if env.inet_pton_ret ≤ 0 then { status := some 0, threads := [], data := data2 }
      else
        let data3 := { data2 with addr_len := 16, mode := env.mode }
        let threads := [Thread.send_position, Thread.receive_position] ++
          (if data3.mode = 1 then [Thread.auto_move] else [])
        let data4 := session_loop sf k b data3 inputs
        if data4.running ≠ 0 then { status := none, threads := threads, data := data4 }
        else { status := some 0, threads := threads, data := data4 }

/-- The invariant of one axis of the bounce between two passes: the
coordinate `v` is on the surface, the sign `d` is +1 or -1 and points inwards
at either boundary. -/
def axis_inv (extent v d : Int) : Prop :=
  0 ≤ v ∧ v ≤ extent - 1 ∧ (v = 0 → d = 1) ∧ (v = extent - 1 → d = -1) ∧ (d = 1 ∨ d = -1)

/-- A surface on which the bounce has room: at least two columns and two
rows, the extents C `int` values. -/
def bounce_surface (sf : Surface) : Prop :=
  2 ≤ sf.COLS ∧ sf.COLS ≤ INT_MAX ∧ 2 ≤ sf.LINES ∧ sf.LINES ≤ INT_MAX

instance (sf : Surface) : Decidable (bounce_surface sf) := by
  unfold bounce_surface; infer_instance

/-! ## Clamping -/

theorem move_up_clamped (sf : Surface) (hs : valid_surface sf) (data : GameInfo)
    (h : clamped sf data.local_pos) : clamped sf (move_up data).local_pos := by
  unfold move_up
  unfold clamped on_surface valid_surface INT_MAX at *
  split
  · simp only [wrap32]; omega
  · exact h

theorem move_down_clamped (sf : Surface) (hs : valid_surface sf) (data : GameInfo)
    (h : clamped sf data.local_pos) : clamped sf (move_down sf data).local_pos := by
  unfold move_down
  unfold clamped on_surface valid_surface INT_MAX at *
  split
  · rename_i hlt
    simp only [wrap32] at hlt ⊢; omega
  · exact h

theorem move_left_clamped (sf : Surface) (hs : valid_surface sf) (data : GameInfo)
    (h : clamped sf data.local_pos) : clamped sf (move_left data).local_pos := by
  unfold move_left
  unfold clamped on_surface valid_surface INT_MAX at *
  split
  · simp only [wrap32]; omega
  · exact h

theorem move_right_clamped (sf : Surface) (hs : valid_surface sf) (data : GameInfo)
    (h : clamped sf data.local_pos) : clamped sf (move_right sf data).local_pos := by
  unfold move_right
  unfold clamped on_surface valid_surface INT_MAX at *
  split
  · rename_i hlt
    simp only [wrap32] at hlt ⊢; omega
  · exact h

theorem key_switch_clamped (sf : Surface) (hs : valid_surface sf) (k : Keys) (data : GameInfo)
    (c : Int) (h : clamped sf data.local_pos) :
    clamped sf (key_switch sf k data c).local_pos := by
  unfold key_switch
  split
  · exact move_up_clamped sf hs data h
  split
  · exact move_down_clamped sf hs data h
  split
  · exact move_left_clamped sf hs data h
  split
  · exact move_right_clamped sf hs data h
  · exact h

theorem controller_event_clamped (sf : Surface) (hs : valid_surface sf) (b : Buttons)
    (data : GameInfo) (e : SDL_Event) (h : clamped sf data.local_pos) :
    clamped sf (controller_event sf b data e).local_pos := by
  unfold controller_event
  split
  · split
    · exact move_up_clamped sf hs data h
    split
    · exact move_down_clamped sf hs data h
    split
    · exact move_left_clamped sf hs data h
    split
    · exact move_right_clamped sf hs data h
    split
    · exact h
    · exact h
  · exact h

theorem poll_events_clamped (sf : Surface) (hs : valid_surface sf) (b : Buttons)
    (events : List SDL_Event) (data : GameInfo) (h : clamped sf data.local_pos) :
    clamped sf (poll_events sf b data events).local_pos := by
  induction events generalizing data with
  | nil => exact h
  | cons e rest ih =>
    exact ih (controller_event sf b data e) (controller_event_clamped sf hs b data e h)

theorem session_tick_clamped (sf : Surface) (hs : valid_surface sf) (k : Keys) (b : Buttons)
    (data : GameInfo) (inp : TickInput) (h : clamped sf data.local_pos) :
    clamped sf (session_tick sf k b data inp).local_pos := by
  have h1 : clamped sf (if inp.c = KEY_Q then { data with running := 0 } else data).local_pos := by
    split <;> exact h
  unfold session_tick
  simp only
  generalize (if inp.c = KEY_Q then { data with running := 0 } else data) = data1 at h1 ⊢
  split
  · exact key_switch_clamped sf hs k _ _ h1
  split
  · exact poll_events_clamped sf hs b _ _ h1
  · exact h1

theorem session_trace_clamped (sf : Surface) (hs : valid_surface sf) (k : Keys) (b : Buttons)
    (inputs : List TickInput) (data : GameInfo) (h : clamped sf data.local_pos) :
    ∀ g ∈ session_trace sf k b data inputs, clamped sf g.local_pos := by
  induction inputs generalizing data with
  | nil => intro g hg; simp [session_trace] at hg
  | cons inp rest ih =>
    intro g hg
    unfold session_trace at hg
    split at hg
    · rcases List.mem_cons.mp hg with rfl | hg
      · exact session_tick_clamped sf hs k b data inp h
      · exact ih _ (session_tick_clamped sf hs k b data inp h) g hg
    · simp at hg

theorem keyboard_trace_clamped (sf : Surface) (hs : valid_surface sf) (k : Keys)
    (keys : List Int) (data : GameInfo) (h : clamped sf data.local_pos) :
    ∀ g ∈ keyboard_trace sf k data keys, clamped sf g.local_pos := by
  induction keys generalizing data with
  | nil => intro g hg; simp [keyboard_trace] at hg
  | cons c rest ih =>
    intro g hg
    unfold keyboard_trace at hg
    split at hg
    · rcases List.mem_cons.mp hg with rfl | hg
      · exact key_switch_clamped sf hs k data c h
      · exact ih _ (key_switch_clamped sf hs k data c h) g hg
    · simp at hg

/-- C1. Clamping invariant of the Manual and ExternalDevice drivers: on a
surface with `COLS >= 1` and `LINES >= 1`, from `local_pos = (0,0)` in mode 0
or mode 2, whatever key codes and controller events arrive, after every pass
of the session loop of `main` `local_pos.x` is in `[0, COLS-1]` and
`local_pos.y` is in `[0, LINES-1]`; the same holds after every pass of the
loop of `keyboard_input`. -/
theorem clamping_invariant (sf : Surface) (k : Keys) (b : Buttons) (data : GameInfo)
    (inputs : List TickInput) (keys : List Int)
    (hs : valid_surface sf) (h0 : data.local_pos = { x := 0, y := 0 })
    (_hm : data.mode = 0 ∨ data.mode = 2) :
    (∀ g ∈ session_trace sf k b data inputs,
        0 ≤ g.local_pos.x ∧ g.local_pos.x ≤ sf.COLS - 1 ∧
        0 ≤ g.local_pos.y ∧ g.local_pos.y ≤ sf.LINES - 1) ∧
    (∀ g ∈ keyboard_trace sf k data keys,
        0 ≤ g.local_pos.x ∧ g.local_pos.x ≤ sf.COLS - 1 ∧
        0 ≤ g.local_pos.y ∧ g.local_pos.y ≤ sf.LINES - 1) := by
  have hstart : clamped sf data.local_pos := by
    rw [h0]
    unfold clamped on_surface valid_surface INT_MAX at *
    simp only
    omega
  exact ⟨fun g hg => (session_trace_clamped sf hs k b inputs data hstart g hg).1,
    fun g hg => (keyboard_trace_clamped sf hs k keys data hstart g hg).1⟩

/-- C1, at an input: a 3 by 2 surface, mode 0, the keys right, right, right,
down, down, up, left and a key that is no arrow. -/
theorem clamping_invariant_witness :
    valid_surface { COLS := 3, LINES := 2 } ∧
    initial_data.local_pos = { x := 0, y := 0 } ∧
    (initial_data.mode = 0 ∨ initial_data.mode = 2) ∧
    (session_trace { COLS := 3, LINES := 2 } curses_keys sdl_buttons initial_data
        [{ c := 261, events := [] }, { c := 261, events := [] }, { c := 261, events := [] },
         { c := 258, events := [] }, { c := 258, events := [] }, { c := 259, events := [] },
         { c := 260, events := [] }, { c := 97, events := [] }]).map (fun g => g.local_pos) =
      [{ x := 1, y := 0 }, { x := 2, y := 0 }, { x := 2, y := 0 }, { x := 2, y := 1 },
       { x := 2, y := 1 }, { x := 2, y := 0 }, { x := 1, y := 0 }, { x := 1, y := 0 }] ∧
    (∀ g ∈ session_trace { COLS := 3, LINES := 2 } curses_keys sdl_buttons initial_data
        [{ c := 261, events := [] }, { c := 261, events := [] }, { c := 261, events := [] },
         { c := 258, events := [] }, { c := 258, events := [] }, { c := 259, events := [] },
         { c := 260, events := [] }, { c := 97, events := [] }],
        0 ≤ g.local_pos.x ∧ g.local_pos.x ≤ (3 : Int) - 1 ∧
        0 ≤ g.local_pos.y ∧ g.local_pos.y ≤ (2 : Int) - 1) :=
  ⟨by decide, by decide, by decide, by decide,
    (clamping_invariant { COLS := 3, LINES := 2 } curses_keys sdl_buttons initial_data
      [{ c := 261, events := [] }, { c := 261, events := [] }, { c := 261, events := [] },
       { c := 258, events := [] }, { c := 258, events := [] }, { c := 259, events := [] },
       { c := 260, events := [] }, { c := 97, events := [] }] []
      (by decide) (by decide) (by decide)).1⟩

/-! ## The Subscriber -/

/-- C3. Sender filter of the Subscriber: for every game state and every
successful receive (positive result of `recvfrom`), one pass of the loop of
`receive_position` sets `remote_pos` to the position of the packet when its
`player_id` is 1 and leaves `remote_pos` as it was for every other
`player_id`; `local_pos` and `running` are unchanged in both cases and the
loop is not left. Packets with ids 0, 1 and 2 received in turn: only the one
with id 1 changes `remote_pos`. -/
theorem sender_filter (data : GameInfo) (received : Int) (packet : Packet)
    (hr : received > 0) :
    (packet.player_id = 1 →
        (receive_body data received packet).data.remote_pos = packet.pos) ∧
    (packet.player_id ≠ 1 →
        (receive_body data received packet).data.remote_pos = data.remote_pos) ∧
    (receive_body data received packet).data.local_pos = data.local_pos ∧
    (receive_body data received packet).data.running = data.running ∧
    (receive_body data received packet).brk = false ∧
    ((receive_position initial_data
        [{ others := id, received := 12, packet := { player_id := 0, pos := { x := 4, y := 5 } } }]).data.remote_pos
        = { x := 0, y := 0 } ∧
     (receive_position initial_data
        [{ others := id, received := 12, packet := { player_id := 0, pos := { x := 4, y := 5 } } },
         { others := id, received := 12, packet := { player_id := 1, pos := { x := 6, y := 7 } } }]).data.remote_pos
        = { x := 6, y := 7 } ∧
     (receive_position initial_data
        [{ others := id, received := 12, packet := { player_id := 0, pos := { x := 4, y := 5 } } },
         { others := id, received := 12, packet := { player_id := 1, pos := { x := 6, y := 7 } } },
         { others := id, received := 12, packet := { player_id := 2, pos := { x := 8, y := 9 } } }]).data.remote_pos
        = { x := 6, y := 7 }) := by
  refine ⟨?_, ?_, ?_, ?_, ?_, by decide⟩
  · intro h1
    simp [receive_body, hr, h1]
  · intro h1
    simp [receive_body, hr, h1]
  · unfold receive_body
    rw [if_pos hr]
    split <;> rfl
  · unfold receive_body
    rw [if_pos hr]
    split <;> rfl
  · unfold receive_body
    rw [if_pos hr]
    split <;> rfl

/-- C3, at an input: a packet with id 1 and position (6,7) received in the
initial state. -/
theorem sender_filter_witness :
    (12 : Int) > 0 ∧
    (receive_body initial_data 12 { player_id := 1, pos := { x := 6, y := 7 } }).data.remote_pos
      = { x := 6, y := 7 } ∧
    (receive_body initial_data 12 { player_id := 1, pos := { x := 6, y := 7 } }).data.local_pos
      = initial_data.local_pos :=
  ⟨by decide,
    (sender_filter initial_data 12 { player_id := 1, pos := { x := 6, y := 7 } } (by decide)).1 rfl,
    (sender_filter initial_data 12 { player_id := 1, pos := { x := 6, y := 7 } } (by decide)).2.2.1⟩

/-- C4, as stated, fails: in the initial state (`running` is 1) a receive
that returns -1 ends the loop of `receive_position`, and `running` is still 1
afterwards, not 0. -/
theorem receive_error_running_counterexample :
    (receive_position initial_data
        [{ others := id, received := -1, packet := { player_id := 0, pos := { x := 0, y := 0 } } }]).exited = true ∧
    (receive_position initial_data
        [{ others := id, received := -1, packet := { player_id := 0, pos := { x := 0, y := 0 } } }]).data.running = 1 ∧
    ¬ ((receive_position initial_data
        [{ others := id, received := -1, packet := { player_id := 0, pos := { x := 0, y := 0 } } }]).data.running = 0) := by
  decide

/-- C4, amended. For every game state with `running` true, when `recvfrom`
returns a negative result the pass of the loop of `receive_position` calls
`perror` and takes `break`, and the shared state is left as it was: `running`
is still true, `local_pos` and `remote_pos` are unchanged. -/
theorem receive_error_leaves_loop (data : GameInfo) (received : Int) (packet : Packet)
    (hrun : data.running ≠ 0) (herr : received < 0) :
    (receive_body data received packet).brk = true ∧
    (receive_body data received packet).perror = true ∧
    (receive_body data received packet).data = data ∧
    (receive_body data received packet).data.running ≠ 0 := by
  have hnp : ¬ received > 0 := by omega
  have hb : receive_body data received packet = { data := data, brk := true, perror := true } := by
    unfold receive_body
    rw [if_neg hnp, if_pos herr]
  rw [hb]
  exact ⟨rfl, rfl, rfl, hrun⟩

/-- C4 amended, at an input: the initial state and the result -1. -/
theorem receive_error_leaves_loop_witness :
    initial_data.running ≠ 0 ∧ (-1 : Int) < 0 ∧
    (receive_body initial_data (-1) { player_id := 1, pos := { x := 3, y := 3 } }).brk = true ∧
    (receive_body initial_data (-1) { player_id := 1, pos := { x := 3, y := 3 } }).data.running ≠ 0 :=
  ⟨by decide, by decide,
    (receive_error_leaves_loop initial_data (-1) { player_id := 1, pos := { x := 3, y := 3 } }
      (by decide) (by decide)).1,
    (receive_error_leaves_loop initial_data (-1) { player_id := 1, pos := { x := 3, y := 3 } }
      (by decide) (by decide)).2.2.2⟩

/-- C9, as stated, fails: in the initial state a receive that times out
(`recvfrom` returns -1) ends the loop of `receive_position`; the packet with
id 1 that arrives next is never received, one `recvfrom` call is made and not
two, and `remote_pos` stays (0,0). -/
theorem receive_timeout_counterexample :
    (receive_position initial_data
        [{ others := id, received := RECV_TIMEOUT, packet := { player_id := 0, pos := { x := 0, y := 0 } } },
         { others := id, received := 12, packet := { player_id := 1, pos := { x := 5, y := 5 } } }]).exited = true ∧
    (receive_position initial_data
        [{ others := id, received := RECV_TIMEOUT, packet := { player_id := 0, pos := { x := 0, y := 0 } } },
         { others := id, received := 12, packet := { player_id := 1, pos := { x := 5, y := 5 } } }]).receives = 1 ∧
    ¬ (2 ≤ (receive_position initial_data
        [{ others := id, received := RECV_TIMEOUT, packet := { player_id := 0, pos := { x := 0, y := 0 } } },
         { others := id, received := 12, packet := { player_id := 1, pos := { x := 5, y := 5 } } }]).receives) ∧
    (receive_position initial_data
        [{ others := id, received := RECV_TIMEOUT, packet := { player_id := 0, pos := { x := 0, y := 0 } } },
         { others := id, received := 12, packet := { player_id := 1, pos := { x := 5, y := 5 } } }]).data.remote_pos
      = { x := 0, y := 0 } := by
  decide

/-- C9, amended. For every game state with `running` true at the loop test,
when the receive call times out (`recvfrom` returns a negative result) the
Subscriber logs "Peer disconnected" (the pass calls `perror`, the one call of
the run) and leaves its loop: that call is the last `recvfrom` it makes,
whatever arrives later, the thread reaches `pthread_exit`, and `local_pos`,
`remote_pos` and `running` are as they were at the loop test. -/
theorem receive_timeout_ends_subscriber (data : GameInfo) (st : RecvStep) (rest : List RecvStep)
    (hrun : (st.others data).running ≠ 0) (hneg : st.received < 0) :
    (receive_body (st.others data) st.received st.packet).perror = true ∧
    (receive_body (st.others data) st.received st.packet).brk = true ∧
    receive_position data (st :: rest) =
      { receives := 1, perrors := 1, data := st.others data, exited := true } ∧
    (receive_position data (st :: rest)).data.local_pos = (st.others data).local_pos ∧
    (receive_position data (st :: rest)).data.remote_pos = (st.others data).remote_pos ∧
    (receive_position data (st :: rest)).data.running = (st.others data).running := by
  have hnp : ¬ st.received > 0 := by omega
  have hb : receive_body (st.others data) st.received st.packet =
      { data := st.others data, brk := true, perror := true } := by
    unfold receive_body
    rw [if_neg hnp, if_pos hneg]
  have hr : receive_position data (st :: rest) =
      { receives := 1, perrors := 1, data := st.others data, exited := true } := by
    rw [receive_position, if_pos hrun, hb]
    simp
  refine ⟨?_, ?_, hr, ?_, ?_, ?_⟩
  · rw [hb]
  · rw [hb]
  · rw [hr]
  · rw [hr]
  · rw [hr]

/-- C9 amended, at an input: a timeout in the initial state, followed by a
packet with id 1. -/
theorem receive_timeout_ends_subscriber_witness :
    (id initial_data).running ≠ 0 ∧ RECV_TIMEOUT < 0 ∧
    (receive_body initial_data RECV_TIMEOUT
      { player_id := 0, pos := { x := 0, y := 0 } }).perror = true ∧
    receive_position initial_data
        [{ others := id, received := RECV_TIMEOUT, packet := { player_id := 0, pos := { x := 0, y := 0 } } },
         { others := id, received := 12, packet := { player_id := 1, pos := { x := 5, y := 5 } } }] =
      { receives := 1, perrors := 1, data := initial_data, exited := true } :=
  ⟨by decide, by decide,
    (receive_timeout_ends_subscriber initial_data
      { others := id, received := RECV_TIMEOUT, packet := { player_id := 0, pos := { x := 0, y := 0 } } }
      [{ others := id, received := 12, packet := { player_id := 1, pos := { x := 5, y := 5 } } }]
      (by decide) (by decide)).1,
    (receive_timeout_ends_subscriber initial_data
      { others := id, received := RECV_TIMEOUT, packet := { player_id := 0, pos := { x := 0, y := 0 } } }
      [{ others := id, received := 12, packet := { player_id := 1, pos := { x := 5, y := 5 } } }]
      (by decide) (by decide)).2.2.1⟩

/-! ## The Publisher -/

theorem send_body_data (data : GameInfo) (packet : Packet) (ret : Int) :
    (send_body data packet ret).data = data := by
  unfold send_body
  simp only
  split <;> rfl

theorem send_body_packet (data : GameInfo) (packet : Packet) (ret : Int) :
    (send_body data packet ret).packet = { packet with pos := data.local_pos } := by
  unfold send_body
  simp only
  split <;> rfl

theorem send_loop_call (steps : List SendStep) :
    ∀ (N : Nat) (data : GameInfo) (packet : Packet),
      packet.player_id = 0 → N < steps.length →
      (∀ g ∈ shared_states data (steps.map (fun st => st.others)), g.running ≠ 0) →
      ∃ pk g, (send_loop data packet steps).calls[N]? = some pk ∧
        (shared_states data (steps.map (fun st => st.others)))[N]? = some g ∧
        pk.player_id = 0 ∧ pk.pos = g.local_pos := by
  induction steps with
  | nil => intro N data packet _ hlen; simp at hlen
  | cons st rest ih =>
    intro N data packet hid hlen hrun
    have hhead : (st.others data).running ≠ 0 :=
      hrun (st.others data) (by simp [shared_states])
    have htail : ∀ g ∈ shared_states (st.others data) (rest.map (fun st => st.others)),
        g.running ≠ 0 := by
      intro g hg
      exact hrun g (by simp [shared_states, hg])
    rw [send_loop, if_pos hhead]
    simp only [send_body_data, send_body_packet, List.map_cons, shared_states]
    cases N with
    | zero =>
      exact ⟨{ packet with pos := (st.others data).local_pos }, st.others data,
        by simp, by simp, hid, rfl⟩
    | succ M =>
      have hlen1 : M < rest.length := by simpa using hlen
      obtain ⟨pk, g, h1, h2, h3, h4⟩ :=
        ih M (st.others data) { packet with pos := (st.others data).local_pos } hid hlen1 htail
      exact ⟨pk, g, by simpa using h1, by simpa using h2, h3, h4⟩

/-- C8. Send failure never stops the Publisher: for every `N` and every run
of `send_position` in which `running` is true at each loop test, if the first
`N` calls of `sendto` all fail (negative result), the Publisher still makes an
(N+1)th call of `sendto`, whose packet carries `player_id` 0 and the
`local_pos` of the shared state at that pass; and whatever `sendto` returns,
a pass leaves `local_pos`, `remote_pos` and `running` as they were. -/
theorem send_failure_never_stops (N : Nat) (data : GameInfo) (steps : List SendStep)
    (hlen : N < steps.length)
    (hrun : ∀ g ∈ shared_states data (steps.map (fun st => st.others)), g.running ≠ 0)
    (_hfail : ∀ i st, i < N → steps[i]? = some st → st.sendto_ret < 0) :
    (∃ pk g, (send_position data steps).calls[N]? = some pk ∧
        (shared_states data (steps.map (fun st => st.others)))[N]? = some g ∧
        pk.player_id = 0 ∧ pk.pos = g.local_pos) ∧
    (∀ (d : GameInfo) (p : Packet) (ret : Int),
        (send_body d p ret).data.local_pos = d.local_pos ∧
        (send_body d p ret).data.remote_pos = d.remote_pos ∧
        (send_body d p ret).data.running = d.running) := by
  refine ⟨send_loop_call steps N data _ rfl hlen hrun, ?_⟩
  intro d p ret
  rw [send_body_data]
  exact ⟨rfl, rfl, rfl⟩

/-- C8, at an input: two failed sends, the driver moving right before the
second and the third pass; the third call is made and carries id 0 and the
position (2,0). -/
theorem send_failure_never_stops_witness :
    (send_position initial_data
        [{ others := id, sendto_ret := -1 },
         { others := move_right { COLS := 80, LINES := 24 }, sendto_ret := -1 },
         { others := move_right { COLS := 80, LINES := 24 }, sendto_ret := 12 }]).calls =
      [{ player_id := 0, pos := { x := 0, y := 0 } },
       { player_id := 0, pos := { x := 1, y := 0 } },
       { player_id := 0, pos := { x := 2, y := 0 } }] ∧
    (∃ pk g, (send_position initial_data
        [{ others := id, sendto_ret := -1 },
         { others := move_right { COLS := 80, LINES := 24 }, sendto_ret := -1 },
         { others := move_right { COLS := 80, LINES := 24 }, sendto_ret := 12 }]).calls[2]? = some pk ∧
        (shared_states initial_data
          (([{ others := id, sendto_ret := -1 },
            { others := move_right { COLS := 80, LINES := 24 }, sendto_ret := -1 },
            { others := move_right { COLS := 80, LINES := 24 }, sendto_ret := 12 }] :
              List SendStep).map (fun st => st.others)))[2]? = some g ∧
        pk.player_id = 0 ∧ pk.pos = g.local_pos) :=
  ⟨by decide,
    (send_failure_never_stops 2 initial_data
      [{ others := id, sendto_ret := -1 },
       { others := move_right { COLS := 80, LINES := 24 }, sendto_ret := -1 },
       { others := move_right { COLS := 80, LINES := 24 }, sendto_ret := 12 }]
      (by decide)
      (by
        intro g hg
        simp only [List.map, shared_states, List.mem_cons, List.mem_nil_iff, or_false] at hg
        rcases hg with rfl | rfl | rfl <;> decide)
      (by
        intro i st hi hst
        have hi2 : i = 0 ∨ i = 1 := by omega
        rcases hi2 with rfl | rfl
        · simp at hst; subst hst; decide
        · simp at hst; subst hst; decide)).1⟩

/-! ## The wire image -/

theorem int_bytes_length (o : ByteOrder) (v : Int) : (int_bytes o v).length = 4 := by
  cases o <;> rfl

theorem bytes_int_int_bytes (o : ByteOrder) (v : Int) (hv : is_int32 v) :
    bytes_int o (int_bytes o v) = v := by
  unfold is_int32 at hv
  cases o <;>
  · simp only [int_bytes, bytes_int, bytes_unsigned, wrap32]
    omega

theorem image_packet_fields (o : ByteOrder) (p : Packet) :
    image_packet o (packet_image o p) =
      { player_id := bytes_int o (int_bytes o p.player_id),
        pos := { x := bytes_int o (int_bytes o p.pos.x),
                 y := bytes_int o (int_bytes o p.pos.y) } } := by
  cases o <;> simp [image_packet, packet_image, int_bytes]

/-- C10. Packet round trip over the wire format: for every `Packet` whose
`player_id`, `x` and `y` are 32-bit signed integers, in either byte order,
the image that `send_position` hands to `sendto` has 12 bytes, and reading
those 12 bytes back into a `Packet`, as `receive_position` does, yields the
identical `player_id`, `x` and `y`. -/
theorem packet_round_trip (o : ByteOrder) (p : Packet)
    (hid : is_int32 p.player_id) (hx : is_int32 p.pos.x) (hy : is_int32 p.pos.y) :
    (packet_image o p).length = 12 ∧
    (image_packet o (packet_image o p)).player_id = p.player_id ∧
    (image_packet o (packet_image o p)).pos.x = p.pos.x ∧
    (image_packet o (packet_image o p)).pos.y = p.pos.y := by
  refine ⟨?_, ?_, ?_, ?_⟩
  · simp [packet_image, int_bytes_length]
  · rw [image_packet_fields]; exact bytes_int_int_bytes o _ hid
  · rw [image_packet_fields]; exact bytes_int_int_bytes o _ hx
  · rw [image_packet_fields]; exact bytes_int_int_bytes o _ hy

/-- C10, at an input: id 0, x the least and y the greatest 32-bit `int`, on a
little-endian machine. -/
theorem packet_round_trip_witness :
    is_int32 0 ∧ is_int32 (-2147483648) ∧ is_int32 2147483647 ∧
    packet_image .little { player_id := 0, pos := { x := -2147483648, y := 2147483647 } } =
      [0, 0, 0, 0, 0, 0, 0, 128, 255, 255, 255, 127] ∧
    (image_packet .little
      (packet_image .little { player_id := 0, pos := { x := -2147483648, y := 2147483647 } })).pos.x
      = -2147483648 :=
  ⟨by decide, by decide, by decide, by decide,
    (packet_round_trip .little { player_id := 0, pos := { x := -2147483648, y := 2147483647 } }
      (by decide) (by decide) (by decide)).2.2.1⟩

/-! ## The Scripted driver -/

theorem x_advance_axis (sf : Surface) (s : AutoState)
    (hc : 2 ≤ sf.COLS) (hm : sf.COLS ≤ INT_MAX)
    (h : axis_inv sf.COLS s.data.local_pos.x s.x_direction) :
    axis_inv sf.COLS (x_advance sf s).data.local_pos.x (x_advance sf s).x_direction ∧
    (((x_advance sf s).data.local_pos.x = 0 ∨ (x_advance sf s).data.local_pos.x = sf.COLS - 1) →
      (x_advance sf s).x_direction = - s.x_direction) ∧
    (¬ ((x_advance sf s).data.local_pos.x = 0 ∨ (x_advance sf s).data.local_pos.x = sf.COLS - 1) →
      (x_advance sf s).x_direction = s.x_direction) := by
  unfold axis_inv INT_MAX at *
  unfold x_advance
  simp only [wrap32]
  obtain ⟨h1, h2, h3, h4, h5⟩ := h
  split
  · rename_i hb
    simp only
    refine ⟨⟨?_, ?_, ?_, ?_, ?_⟩, ?_, ?_⟩ <;> intros <;> first | trivial | omega
  · rename_i hb
    simp only
    refine ⟨⟨?_, ?_, ?_, ?_, ?_⟩, ?_, ?_⟩ <;> intros <;> first | trivial | omega

theorem y_advance_axis (sf : Surface) (s : AutoState)
    (hc : 2 ≤ sf.LINES) (hm : sf.LINES ≤ INT_MAX)
    (h : axis_inv sf.LINES s.data.local_pos.y s.y_direction) :
    axis_inv sf.LINES (y_advance sf s).data.local_pos.y (y_advance sf s).y_direction ∧
    (((y_advance sf s).data.local_pos.y = 0 ∨ (y_advance sf s).data.local_pos.y = sf.LINES - 1) →
      (y_advance sf s).y_direction = - s.y_direction) ∧
    (¬ ((y_advance sf s).data.local_pos.y = 0 ∨ (y_advance sf s).data.local_pos.y = sf.LINES - 1) →
      (y_advance sf s).y_direction = s.y_direction) := by
  unfold axis_inv INT_MAX at *
  unfold y_advance
  simp only [wrap32]
  obtain ⟨h1, h2, h3, h4, h5⟩ := h
  split
  · rename_i hb
    simp only
    refine ⟨⟨?_, ?_, ?_, ?_, ?_⟩, ?_, ?_⟩ <;> intros <;> first | trivial | omega
  · rename_i hb
    simp only
    refine ⟨⟨?_, ?_, ?_, ?_, ?_⟩, ?_, ?_⟩ <;> intros <;> first | trivial | omega

theorem x_advance_frame (sf : Surface) (s : AutoState) :
    (x_advance sf s).data.local_pos.y = s.data.local_pos.y ∧
    (x_advance sf s).y_direction = s.y_direction ∧
    (x_advance sf s).data.running = s.data.running := by
  unfold x_advance
  simp only
  split <;> exact ⟨rfl, rfl, rfl⟩

theorem y_advance_frame (sf : Surface) (s : AutoState) :
    (y_advance sf s).data.local_pos.x = s.data.local_pos.x ∧
    (y_advance sf s).x_direction = s.x_direction ∧
    (y_advance sf s).data.running = s.data.running := by
  unfold y_advance
  simp only
  split <;> exact ⟨rfl, rfl, rfl⟩

theorem auto_move_pass_running (sf : Surface) (s : AutoState) :
    (auto_move_pass sf s).data.running = s.data.running := by
  unfold auto_move_pass
  rw [(y_advance_frame sf _).2.2, (x_advance_frame sf s).2.2]

theorem auto_move_loop_succ (sf : Surface) (n : Nat) :
    ∀ s : AutoState, s.data.running ≠ 0 →
      auto_move_loop sf (n + 1) s = auto_move_pass sf (auto_move_loop sf n s) ∧
      (auto_move_loop sf n s).data.running = s.data.running := by
  induction n with
  | zero =>
    intro s hrun
    simp [auto_move_loop, hrun]
  | succ m ih =>
    intro s hrun
    have hrun1 : (auto_move_pass sf s).data.running ≠ 0 := by
      rw [auto_move_pass_running]; exact hrun
    obtain ⟨h1, h2⟩ := ih (auto_move_pass sf s) hrun1
    constructor
    · rw [auto_move_loop, if_pos hrun, h1]
      congr 1
      rw [auto_move_loop, if_pos hrun]
    · rw [auto_move_loop, if_pos hrun, h2, auto_move_pass_running]

theorem auto_move_loop_inv (sf : Surface) (hs : bounce_surface sf) (data : GameInfo)
    (h0 : data.local_pos = { x := 0, y := 0 }) (hrun : data.running ≠ 0) (n : Nat) :
    axis_inv sf.COLS (auto_move_loop sf n (auto_start data)).data.local_pos.x
      (auto_move_loop sf n (auto_start data)).x_direction ∧
    axis_inv sf.LINES (auto_move_loop sf n (auto_start data)).data.local_pos.y
      (auto_move_loop sf n (auto_start data)).y_direction := by
  obtain ⟨hc, hcm, hl, hlm⟩ := hs
  induction n with
  | zero =>
    simp only [auto_move_loop, auto_start, h0]
    unfold axis_inv
    constructor <;> omega
  | succ m ih =>
    obtain ⟨hx, hy⟩ := ih
    rw [(auto_move_loop_succ sf m (auto_start data) hrun).1]
    unfold auto_move_pass
    have hx1 := (x_advance_axis sf _ hc hcm hx).1
    have hf := x_advance_frame sf (auto_move_loop sf m (auto_start data))
    have hy0 : axis_inv sf.LINES (x_advance sf (auto_move_loop sf m (auto_start data))).data.local_pos.y
        (x_advance sf (auto_move_loop sf m (auto_start data))).y_direction := by
      rw [hf.1, hf.2.1]; exact hy
    have hy1 := (y_advance_axis sf _ hl hlm hy0).1
    have hg := y_advance_frame sf (x_advance sf (auto_move_loop sf m (auto_start data)))
    exact ⟨by rw [hg.1, hg.2.1]; exact hx1, hy1⟩

/-- C6. Bounce invariant of the Scripted driver: `auto_move` started at
`local_pos = (0,0)` with both signs +1 on a surface with `COLS >= 2` and
`LINES >= 2`. After any number `n` of passes of its loop (state `S`), the
pass `n+1` is the x-advance (state `X`) followed by the y-advance (state
`Y`); `x` is in `[0, COLS-1]` and `y` in `[0, LINES-1]` in `S`, `X` and `Y`;
the x-advance reverses the x-sign if and only if the new `x` is 0 or
`COLS-1`, and leaves it as it was otherwise; the y-advance reverses the
y-sign if and only if the new `y` is 0 or `LINES-1`, and leaves it as it was
otherwise. -/
theorem bounce_invariant (sf : Surface) (data : GameInfo) (n : Nat) (S X Y : AutoState)
    (hs : bounce_surface sf) (h0 : data.local_pos = { x := 0, y := 0 })
    (hrun : data.running ≠ 0)
    (hS : S = auto_move_loop sf n (auto_start data))
    (hX : X = x_advance sf S) (hY : Y = y_advance sf X) :
    auto_move_loop sf (n + 1) (auto_start data) = Y ∧
    (0 ≤ S.data.local_pos.x ∧ S.data.local_pos.x ≤ sf.COLS - 1 ∧
      0 ≤ S.data.local_pos.y ∧ S.data.local_pos.y ≤ sf.LINES - 1) ∧
    (0 ≤ X.data.local_pos.x ∧ X.data.local_pos.x ≤ sf.COLS - 1 ∧
      0 ≤ X.data.local_pos.y ∧ X.data.local_pos.y ≤ sf.LINES - 1) ∧
    (0 ≤ Y.data.local_pos.x ∧ Y.data.local_pos.x ≤ sf.COLS - 1 ∧
      0 ≤ Y.data.local_pos.y ∧ Y.data.local_pos.y ≤ sf.LINES - 1) ∧
    (S.x_direction = 1 ∨ S.x_direction = -1) ∧
    (X.x_direction = - S.x_direction ↔
      (X.data.local_pos.x = 0 ∨ X.data.local_pos.x = sf.COLS - 1)) ∧
    (X.x_direction = S.x_direction ↔
      ¬ (X.data.local_pos.x = 0 ∨ X.data.local_pos.x = sf.COLS - 1)) ∧
    (X.y_direction = 1 ∨ X.y_direction = -1) ∧
    (Y.y_direction = - X.y_direction ↔
      (Y.data.local_pos.y = 0 ∨ Y.data.local_pos.y = sf.LINES - 1)) ∧
    (Y.y_direction = X.y_direction ↔
      ¬ (Y.data.local_pos.y = 0 ∨ Y.data.local_pos.y = sf.LINES - 1)) := by
  obtain ⟨hxS, hyS⟩ := auto_move_loop_inv sf hs data h0 hrun n
  have hstep := (auto_move_loop_succ sf n (auto_start data) hrun).1
  rw [← hS] at hxS hyS hstep
  obtain ⟨hc, hcm, hl, hlm⟩ := hs
  obtain ⟨hxX, hxrev, hxkeep⟩ := x_advance_axis sf S hc hcm hxS
  have hfX := x_advance_frame sf S
  rw [← hX] at hxX hxrev hxkeep hfX
  have hyX : axis_inv sf.LINES X.data.local_pos.y X.y_direction := by
    rw [hfX.1, hfX.2.1]; exact hyS
  obtain ⟨hyY, hyrev, hykeep⟩ := y_advance_axis sf X hl hlm hyX
  have hfY := y_advance_frame sf X
  rw [← hY] at hyY hyrev hykeep hfY
  have hdS : S.x_direction = 1 ∨ S.x_direction = -1 := hxS.2.2.2.2
  have hdX : X.y_direction = 1 ∨ X.y_direction = -1 := hyX.2.2.2.2
  refine ⟨?_, ⟨hxS.1, hxS.2.1, hyS.1, hyS.2.1⟩, ⟨hxX.1, hxX.2.1, hyX.1, hyX.2.1⟩,
    ⟨?_, ?_, hyY.1, hyY.2.1⟩, hdS, ⟨?_, hxrev⟩, ⟨?_, hxkeep⟩, hdX, ⟨?_, hyrev⟩, ⟨?_, hykeep⟩⟩
  · rw [hstep, hY, hX]; rfl
  · rw [hfY.1]; exact hxX.1
  · rw [hfY.1]; exact hxX.2.1
  · intro h
    by_contra hb
    have := hxkeep hb
    omega
  · intro h hb
    have := hxrev hb
    omega
  · intro h
    by_contra hb
    have := hykeep hb
    omega
  · intro h hb
    have := hyrev hb
    omega

/-- C6, at an input: a 3 by 2 surface, mode 1, after three passes the
position is (1,1) with x-sign -1 and y-sign -1; the fourth pass moves to
(0,0) and reverses both signs. -/
theorem bounce_invariant_witness :
    bounce_surface { COLS := 3, LINES := 2 } ∧
    auto_move_loop { COLS := 3, LINES := 2 } 3 (auto_start { initial_data with mode := 1 }) =
      { data := { initial_data with mode := 1, local_pos := { x := 1, y := 1 } },
        x_direction := -1, y_direction := -1 } ∧
    auto_move_loop { COLS := 3, LINES := 2 } 4 (auto_start { initial_data with mode := 1 }) =
      { data := { initial_data with mode := 1, local_pos := { x := 0, y := 0 } },
        x_direction := 1, y_direction := 1 } :=
  ⟨by decide, by decide,
    ((bounce_invariant { COLS := 3, LINES := 2 } { initial_data with mode := 1 } 3
      (auto_move_loop { COLS := 3, LINES := 2 } 3 (auto_start { initial_data with mode := 1 }))
      (x_advance { COLS := 3, LINES := 2 }
        (auto_move_loop { COLS := 3, LINES := 2 } 3 (auto_start { initial_data with mode := 1 })))
      { data := { initial_data with mode := 1, local_pos := { x := 0, y := 0 } },
        x_direction := 1, y_direction := 1 }
      (by decide) (by decide) (by decide) rfl rfl (by decide)).1)⟩

/-! ### The period of the bounce -/

theorem x_advance_congr (sf sf2 : Surface) (s s2 : AutoState)
    (hc : sf.COLS = sf2.COLS) (hx : s.data.local_pos.x = s2.data.local_pos.x)
    (hd : s.x_direction = s2.x_direction) :
    (x_advance sf s).data.local_pos.x = (x_advance sf2 s2).data.local_pos.x ∧
    (x_advance sf s).x_direction = (x_advance sf2 s2).x_direction := by
  unfold x_advance
  simp only [hc, hx, hd]
  split <;> exact ⟨rfl, rfl⟩

theorem auto_move_pass_congr (sf sf2 : Surface) (s s2 : AutoState)
    (hc : sf.COLS = sf2.COLS) (hx : s.data.local_pos.x = s2.data.local_pos.x)
    (hd : s.x_direction = s2.x_direction) :
    (auto_move_pass sf s).data.local_pos.x = (auto_move_pass sf2 s2).data.local_pos.x ∧
    (auto_move_pass sf s).x_direction = (auto_move_pass sf2 s2).x_direction := by
  unfold auto_move_pass
  rw [(y_advance_frame sf _).1, (y_advance_frame sf _).2.1,
    (y_advance_frame sf2 _).1, (y_advance_frame sf2 _).2.1]
  exact x_advance_congr sf sf2 s s2 hc hx hd

theorem auto_move_loop_congr (sf sf2 : Surface) (hc : sf.COLS = sf2.COLS) (n : Nat) :
    ∀ s s2 : AutoState, s.data.local_pos.x = s2.data.local_pos.x →
      s.x_direction = s2.x_direction → s.data.running ≠ 0 → s2.data.running ≠ 0 →
      (auto_move_loop sf n s).data.local_pos.x = (auto_move_loop sf2 n s2).data.local_pos.x ∧
      (auto_move_loop sf n s).x_direction = (auto_move_loop sf2 n s2).x_direction ∧
      x_reversals sf n s = x_reversals sf2 n s2 := by
  induction n with
  | zero =>
    intro s s2 hx hd _ _
    exact ⟨hx, hd, rfl⟩
  | succ m ih =>
    intro s s2 hx hd hr hr2
    obtain ⟨px, pd⟩ := auto_move_pass_congr sf sf2 s s2 hc hx hd
    have hr1 : (auto_move_pass sf s).data.running ≠ 0 := by
      rw [auto_move_pass_running]; exact hr
    have hr3 : (auto_move_pass sf2 s2).data.running ≠ 0 := by
      rw [auto_move_pass_running]; exact hr2
    obtain ⟨i1, i2, i3⟩ := ih _ _ px pd hr1 hr3
    simp only [auto_move_loop, x_reversals, if_pos hr, if_pos hr2]
    refine ⟨i1, i2, ?_⟩
    rw [i3, (x_advance_congr sf sf2 s s2 hc hx hd).2, hd]

/-- C7, as stated, fails: with `COLS = 10`, `x` starting at 0 and x-sign +1,
after 10 passes of the loop of `auto_move` (10 advances of `x`) `x` is 8, not
0, and the x-sign has been reversed once, not twice. -/
theorem bounce_period_counterexample :
    (auto_move_loop { COLS := 10, LINES := 24 } 10
      (auto_start { initial_data with mode := 1 })).data.local_pos.x = 8 ∧
    x_reversals { COLS := 10, LINES := 24 } 10 (auto_start { initial_data with mode := 1 }) = 1 ∧
    ¬ ((auto_move_loop { COLS := 10, LINES := 24 } 10
        (auto_start { initial_data with mode := 1 })).data.local_pos.x = 0 ∧
      x_reversals { COLS := 10, LINES := 24 } 10 (auto_start { initial_data with mode := 1 }) = 2) := by
  decide

/-- C7, amended. Bounce period of the Scripted driver: with `COLS = 10`, `x`
starting at 0 and x-sign +1, `x` is 0 again after 18 advances of `x`, and not
before; the x-sign is then +1 and has been reversed exactly twice. After 10
advances `x` is 8, the x-sign is -1 and has been reversed once. -/
theorem bounce_period (sf : Surface) (data : GameInfo)
    (hc : sf.COLS = 10) (h0 : data.local_pos.x = 0) (hrun : data.running ≠ 0) :
    (auto_move_loop sf 18 (auto_start data)).data.local_pos.x = 0 ∧
    (auto_move_loop sf 18 (auto_start data)).x_direction = 1 ∧
    x_reversals sf 18 (auto_start data) = 2 ∧
    (∀ n, 0 < n → n < 18 → (auto_move_loop sf n (auto_start data)).data.local_pos.x ≠ 0) ∧
    (auto_move_loop sf 10 (auto_start data)).data.local_pos.x = 8 ∧
    (auto_move_loop sf 10 (auto_start data)).x_direction = -1 ∧
    x_reversals sf 10 (auto_start data) = 1 := by
  have key : ∀ n,
      (auto_move_loop sf n (auto_start data)).data.local_pos.x =
        (auto_move_loop { COLS := 10, LINES := 24 } n (auto_start initial_data)).data.local_pos.x ∧
      (auto_move_loop sf n (auto_start data)).x_direction =
        (auto_move_loop { COLS := 10, LINES := 24 } n (auto_start initial_data)).x_direction ∧
      x_reversals sf n (auto_start data) =
        x_reversals { COLS := 10, LINES := 24 } n (auto_start initial_data) := by
    intro n
    exact auto_move_loop_congr sf { COLS := 10, LINES := 24 } hc n (auto_start data)
      (auto_start initial_data) h0 rfl hrun (by decide)
  have hnz : ∀ n, n < 18 → 0 < n →
      (auto_move_loop { COLS := 10, LINES := 24 } n (auto_start initial_data)).data.local_pos.x ≠ 0 := by
    decide
  refine ⟨?_, ?_, ?_, ?_, ?_, ?_, ?_⟩
  · rw [(key 18).1]; decide
  · rw [(key 18).2.1]; decide
  · rw [(key 18).2.2]; decide
  · intro n hpos hlt
    rw [(key n).1]
    exact hnz n hlt hpos
  · rw [(key 10).1]; decide
  · rw [(key 10).2.1]; decide
  · rw [(key 10).2.2]; decide

/-- C7 amended, at an input: an 80 by 24 surface cut to 10 columns, mode 1. -/
theorem bounce_period_witness :
    ({ COLS := 10, LINES := 24 } : Surface).COLS = 10 ∧
    ({ initial_data with mode := 1 } : GameInfo).local_pos.x = 0 ∧
    ({ initial_data with mode := 1 } : GameInfo).running ≠ 0 ∧
    (auto_move_loop { COLS := 10, LINES := 24 } 18
      (auto_start { initial_data with mode := 1 })).data.local_pos.x = 0 ∧
    x_reversals { COLS := 10, LINES := 24 } 18 (auto_start { initial_data with mode := 1 }) = 2 :=
  ⟨rfl, rfl, by decide,
    (bounce_period { COLS := 10, LINES := 24 } { initial_data with mode := 1 } rfl rfl (by decide)).1,
    (bounce_period { COLS := 10, LINES := 24 } { initial_data with mode := 1 } rfl rfl (by decide)).2.2.1⟩

/-! ## Two peers -/

/-- C2, at the input of the claim. Peer A, on a 3 by 2 surface in mode 0,
reads the keys right, right, down and stands at (2,1); its Publisher hands
`sendto` the packet with `player_id` 0 and position (2,1); the image of that
packet has 12 bytes and reads back as the same packet. Delivered whole to
peer B of the same build, the packet is received (one `recvfrom`, positive
result) and dropped by the test `packet.player_id == 1`: the `remote_pos` of
B is still (0,0), not (2,1). -/
theorem end_to_end_delivery_dropped :
    (session_loop { COLS := 3, LINES := 2 } curses_keys sdl_buttons initial_data
        [{ c := 261, events := [] }, { c := 261, events := [] }, { c := 258, events := [] }]).local_pos
      = { x := 2, y := 1 } ∧
    (send_position
        (session_loop { COLS := 3, LINES := 2 } curses_keys sdl_buttons initial_data
          [{ c := 261, events := [] }, { c := 261, events := [] }, { c := 258, events := [] }])
        [{ others := id, sendto_ret := 12 }]).calls
      = [{ player_id := 0, pos := { x := 2, y := 1 } }] ∧
    (deliver .little { player_id := 0, pos := { x := 2, y := 1 } }).received = 12 ∧
    (deliver .little { player_id := 0, pos := { x := 2, y := 1 } }).packet
      = { player_id := 0, pos := { x := 2, y := 1 } } ∧
    (receive_position initial_data
        [deliver .little { player_id := 0, pos := { x := 2, y := 1 } }]).receives = 1 ∧
    (receive_position initial_data
        [deliver .little { player_id := 0, pos := { x := 2, y := 1 } }]).data.remote_pos
      = { x := 0, y := 0 } ∧
    (receive_position initial_data
        [deliver .little { player_id := 0, pos := { x := 2, y := 1 } }]).data.remote_pos
      ≠ { x := 2, y := 1 } := by
  decide

/-! ## Startup errors -/

/-- C5, at the inputs of the claim. With three arguments (`argc` is 4), a
failing `bind` and a remote IP that `inet_pton` rejects both make `main`
return 0, with no thread created; the two startup failures before them
(`SDL_Init` fails, wrong argument count) return 1. -/
theorem startup_error_exit_status :
    (main { COLS := 80, LINES := 24 } curses_keys sdl_buttons
        { SDL_Init_ret := 0, argc := 4, socket_ret := 3, bind_ret := -1, inet_pton_ret := 1,
          remote_port := 9001, remote_ip := 2130706433, mode := 0 } []).status = some 0 ∧
    (main { COLS := 80, LINES := 24 } curses_keys sdl_buttons
        { SDL_Init_ret := 0, argc := 4, socket_ret := 3, bind_ret := -1, inet_pton_ret := 1,
          remote_port := 9001, remote_ip := 2130706433, mode := 0 } []).threads = [] ∧
    (main { COLS := 80, LINES := 24 } curses_keys sdl_buttons
        { SDL_Init_ret := 0, argc := 4, socket_ret := 3, bind_ret := 0, inet_pton_ret := 0,
          remote_port := 9001, remote_ip := 0, mode := 0 } []).status = some 0 ∧
    (main { COLS := 80, LINES := 24 } curses_keys sdl_buttons
        { SDL_Init_ret := 0, argc := 4, socket_ret := 3, bind_ret := 0, inet_pton_ret := 0,
          remote_port := 9001, remote_ip := 0, mode := 0 } []).threads = [] ∧
    (main { COLS := 80, LINES := 24 } curses_keys sdl_buttons
        { SDL_Init_ret := -1, argc := 4, socket_ret := 3, bind_ret := 0, inet_pton_ret := 1,
          remote_port := 9001, remote_ip := 2130706433, mode := 0 } []).status = some 1 ∧
    (main { COLS := 80, LINES := 24 } curses_keys sdl_buttons
        { SDL_Init_ret := 0, argc := 3, socket_ret := 3, bind_ret := 0, inet_pton_ret := 1,
          remote_port := 9001, remote_ip := 2130706433, mode := 0 } []).status = some 1 := by
  decide

end NetworkFinal
